import Mathlib

/-!
# Verification of the pleb-r1 Nostr relay core

Shallow embedding of the relay's event model, filter matching, filter
validation, event-store operations, rate limiter and message handlers,
translated from the Rust sources:

* `services/nostr-types/src/event.rs` — `Tag`, `Event`
* `services/nostr-types/src/filter.rs` — `Filter`, `Filter::matches`
* `services/nostr-types/src/validation.rs` — `Event::validate_kind_specific`,
  `FilterValidator`
* `services/relay-engine/src/database.rs` — `PostgresDatabase::save_event`,
  `event_exists`, `get_events`
* `services/relay-engine/src/main.rs` — `handle_event_message`,
  `handle_req_message`
* `services/relay-engine/src/event_handler.rs` — `EventHandler::process_event`
* `services/relay-engine/src/websocket.rs` — OK-reply construction
* `services/relay-engine/src/rate_limiter.rs` — `RateLimitEntry`,
  `RateLimiter::check_event_rate`, `add_connection`, `remove_connection`

Strings are Lean `String`s, `i64` timestamps are `Int`, `u64` kinds are `Nat`.
The `HashMap<String, Vec<String>>` of tag clauses is modelled as an
association list (iteration order of the map is unspecified in Rust; all
properties proved here are order-independent).
-/

namespace PlebR1

/-- A tag of a Nostr event: `struct Tag(Vec<String>)` (event.rs). -/
structure Tag where
  values : List String
deriving DecidableEq, Repr

/-- `Tag::tag_name`: the first element, if any (event.rs). -/
def Tag.tag_name (t : Tag) : Option String :=
  t.values.head?

/-- `Tag::get(index)` (event.rs). -/
def Tag.get (t : Tag) (index : Nat) : Option String :=
  t.values.get? index

/-- Core Nostr event (event.rs `struct Event`).  The `id`, `pubkey` and `sig`
newtypes hold hex strings; we model them by their hex payload directly
(`EventId::as_hex`, `PublicKey::as_hex`).  `sig` is carried but unused by the
operations modelled here. -/
structure Event where
  id : String
  pubkey : String
  created_at : Int
  kind : Nat
  tags : List Tag
  content : String
  sig : String
deriving DecidableEq, Repr

/-- `Event::is_ephemeral`: kind 20000–29999 (event.rs). -/
def Event.is_ephemeral (e : Event) : Bool :=
  20000 ≤ e.kind && e.kind ≤ 29999

/-- `Event::is_replaceable`: kind 10000–19999 (event.rs). -/
def Event.is_replaceable (e : Event) : Bool :=
  10000 ≤ e.kind && e.kind ≤ 19999

/-- `Event::is_parameterized_replaceable`: kind 30000–39999 (event.rs). -/
def Event.is_parameterized_replaceable (e : Event) : Bool :=
  30000 ≤ e.kind && e.kind ≤ 39999

/-- `Event::d_tag`: second element of the first tag named `"d"` (event.rs). -/
def Event.d_tag (e : Event) : Option String :=
  (e.tags.find? (fun tag => tag.tag_name == some "d")).bind (fun tag => tag.get 1)

/-- Subscription filter (filter.rs `struct Filter`).  The `#[serde(flatten)]`
tag-clause map is an association list from the literal JSON key (e.g. `"#e"`)
to the clause's value list. -/
structure Filter where
  ids : Option (List String)
  authors : Option (List String)
  kinds : Option (List Nat)
  since : Option Int
  «until» : Option Int
  limit : Option Nat
  tags : List (String × List String)
deriving DecidableEq, Repr

/-- `Filter::new` = `Filter::default` (filter.rs): every clause absent. -/
def Filter.new : Filter :=
  { ids := none, authors := none, kinds := none, since := none,
    «until» := none, limit := none, tags := [] }

/-- `Filter::matches` (filter.rs lines 70–118), clause by clause in source
order: ids, authors, kinds, since, until, then every tag clause.  Note that
the tag clause compares the map key (which carries its `#` prefix on the wire
and from `Filter::tag`) against `Tag::tag_name`, and scans `values()[1..]` for
a member of the clause's set. -/
def Filter.matches (f : Filter) (event : Event) : Bool :=
  (match f.ids with
   | some ids => ids.contains event.id
   | none => true) &&
  (match f.authors with
   | some authors => authors.contains event.pubkey
   | none => true) &&
  (match f.kinds with
   | some kinds => kinds.contains event.kind
   | none => true) &&
  (match f.since with
   | some since => !(event.created_at < since)
   | none => true) &&
  (match f.«until» with
   | some u => !(event.created_at > u)
   | none => true) &&
  f.tags.all (fun clause =>
    event.tags.any (fun tag =>
      tag.tag_name == some clause.1 &&
      (tag.values.drop 1).any (fun v => clause.2.contains v)))

/-!
## JSON recognizer

`Event::validate_kind_specific` (validation.rs) feeds kind-0 `content` to
`serde_json::from_str::<serde_json::Value>` and only asks whether parsing
succeeds.  We embed a recognizer for the JSON grammar serde_json accepts:
a single value surrounded by optional whitespace (space, tab, LF, CR),
strings with the standard escapes and surrogate-pair checking, numbers
`-?(0|[1-9][0-9]*)(\.[0-9]+)?([eE][+-]?[0-9]+)?` (float range overflow is
not modelled), arrays and objects.  The functions return the unconsumed
input on success.
-/

/-- JSON whitespace. -/
def isJsonWs (c : Char) : Bool :=
  c == ' ' || c == '\t' || c == '\n' || c == '\r'

/-- Drop leading JSON whitespace. -/
def skipWs : List Char → List Char
  | [] => []
  | c :: cs => if isJsonWs c then skipWs cs else c :: cs

/-- Value of a hex digit, if it is one. -/
def hexDigitVal (c : Char) : Option Nat :=
  if c.isDigit then some (c.toNat - 48)
  else if 'a' ≤ c && c ≤ 'f' then some (c.toNat - 87)
  else if 'A' ≤ c && c ≤ 'F' then some (c.toNat - 55)
  else none

/-- Read exactly four hex digits and return their value. -/
def hex4 : List Char → Option (Nat × List Char)
  | a :: b :: c :: d :: rest =>
    match hexDigitVal a, hexDigitVal b, hexDigitVal c, hexDigitVal d with
    | some x, some y, some z, some w => some ((((x * 16 + y) * 16 + z) * 16 + w), rest)
    | _, _, _, _ => none
  | _ => none

/-- Recognize the remainder of a JSON string after its opening quote. -/
def jsonStringRest : Nat → List Char → Option (List Char)
  | 0, _ => none
  | _ + 1, [] => none
  | fuel + 1, c :: cs =>
    if c == '"' then some cs
    else if c == '\\' then
      match cs with
      | [] => none
      | e :: cs2 =>
        if e == '"' || e == '\\' || e == '/' || e == 'b' || e == 'f'
            || e == 'n' || e == 'r' || e == 't' then
          jsonStringRest fuel cs2
        else if e == 'u' then
          match hex4 cs2 with
          | none => none
          | some (n, cs3) =>
            if 0xD800 ≤ n && n ≤ 0xDBFF then
              match cs3 with
              | '\\' :: 'u' :: cs4 =>
                (match hex4 cs4 with
                 | some (m, cs5) =>
                   if 0xDC00 ≤ m && m ≤ 0xDFFF then jsonStringRest fuel cs5 else none
                 | none => none)
              | _ => none
            else if 0xDC00 ≤ n && n ≤ 0xDFFF then none
            else jsonStringRest fuel cs3
        else none
    else if c.toNat < 0x20 then none
    else jsonStringRest fuel cs

/-- Drop a (possibly empty) run of decimal digits. -/
def dropDigits : List Char → List Char
  | [] => []
  | c :: cs => if c.isDigit then dropDigits cs else c :: cs

/-- Recognize an optional JSON exponent part. -/
def jsonExp (cs : List Char) : Option (List Char) :=
  match cs with
  | c :: rest =>
    if c == 'e' || c == 'E' then
      let rest2 := match rest with
        | s :: r2 => if s == '+' || s == '-' then r2 else rest
        | [] => rest
      match rest2 with
      | d :: r3 => if d.isDigit then some (dropDigits r3) else none
      | [] => none
    else some cs
  | [] => some []

/-- Recognize an optional JSON fraction part followed by an optional exponent. -/
def jsonFrac (cs : List Char) : Option (List Char) :=
  match cs with
  | '.' :: rest =>
    (match rest with
     | d :: r2 => if d.isDigit then jsonExp (dropDigits r2) else none
     | [] => none)
  | _ => jsonExp cs

/-- Recognize a JSON number. -/
def jsonNumber (cs : List Char) : Option (List Char) :=
  let cs2 := match cs with
    | '-' :: rest => rest
    | _ => cs
  match cs2 with
  | '0' :: rest => jsonFrac rest
  | c :: rest => if c.isDigit then jsonFrac (dropDigits rest) else none
  | [] => none

mutual

/-- Recognize one JSON value (leading whitespace allowed). -/
def jsonValue : Nat → List Char → Option (List Char)
  | 0, _ => none
  | fuel + 1, cs =>
    match skipWs cs with
    | 'n' :: 'u' :: 'l' :: 'l' :: rest => some rest
    | 't' :: 'r' :: 'u' :: 'e' :: rest => some rest
    | 'f' :: 'a' :: 'l' :: 's' :: 'e' :: rest => some rest
    | '"' :: rest => jsonStringRest (rest.length + 1) rest
    | '[' :: rest =>
      (match skipWs rest with
       | ']' :: rest2 => some rest2
       | rest2 => jsonArrayItems fuel rest2)
    | '\x7b' :: rest =>
      (match skipWs rest with
       | '\x7d' :: rest2 => some rest2
       | rest2 => jsonObjectItems fuel rest2)
    | rest => jsonNumber rest

/-- Recognize the items of a non-empty JSON array, after `[`. -/
def jsonArrayItems : Nat → List Char → Option (List Char)
  | 0, _ => none
  | fuel + 1, cs =>
    match jsonValue fuel cs with
    | none => none
    | some rest =>
      match skipWs rest with
      | ',' :: rest2 => jsonArrayItems fuel rest2
      | ']' :: rest2 => some rest2
      | _ => none

/-- Recognize the members of a non-empty JSON object, after `{`. -/
def jsonObjectItems : Nat → List Char → Option (List Char)
  | 0, _ => none
  | fuel + 1, cs =>
    match skipWs cs with
    | '"' :: rest =>
      (match jsonStringRest (rest.length + 1) rest with
       | none => none
       | some rest2 =>
         match skipWs rest2 with
         | ':' :: rest3 =>
           (match jsonValue fuel rest3 with
            | none => none
            | some rest4 =>
              match skipWs rest4 with
              | ',' :: rest5 => jsonObjectItems fuel rest5
              | '\x7d' :: rest5 => some rest5
              | _ => none)
         | _ => none)
    | _ => none

end

/-- `serde_json::from_str::<Value>(s).is_ok()`: the whole input is one JSON
value surrounded by whitespace.  The fuel `2 * s.length + 8` dominates the
recursion depth, which consumes at least one character per two fuel units. -/
def parsesAsJson (s : String) : Bool :=
  match jsonValue (2 * s.length + 8) s.toList with
  | some rest => (skipWs rest).isEmpty
  | none => false

/-!
## Structural kind-specific validation (validation.rs lines 94–182)
-/

/-- `Event::validate_kind_specific` (validation.rs): `true` means `Ok(())`.
Arms in source order: 1, 3, 4, 5, 7, 0, 30000–39999, default.  The kind-0 arm
parses non-empty `content` as a `serde_json::Value` — any JSON value, with an
empty `content` accepted without parsing. -/
def Event.validate_kind_specific (e : Event) : Bool :=
  if e.kind == 1 then true
  else if e.kind == 3 then
    (if !e.is_replaceable && e.kind != 3 then false else true)
  else if e.kind == 4 then
    (e.tags.filter (fun tag => tag.tag_name == some "p")).length == 1
  else if e.kind == 5 then
    e.tags.any (fun tag => tag.tag_name == some "e")
  else if e.kind == 7 then
    e.tags.any (fun tag => tag.tag_name == some "e")
  else if e.kind == 0 then
    (if e.content.isEmpty then true else parsesAsJson e.content)
  else if 30000 ≤ e.kind && e.kind ≤ 39999 then
    e.d_tag.isSome
  else true

/-!
## Filter validation (validation.rs lines 188–266)
-/

/-- `FilterValidator::validate_single_filter`: `true` means `Ok(())`.  The
checks, in source order: `limit ≤ 5000`; when both `since` and `until` are
present, `since < until` and not (range over 30 days with `ids`, `authors`
and `kinds` all absent); at most 1000 ids; at most 1000 authors; at most 20
kinds.  Tag clauses are never inspected. -/
def FilterValidator.validate_single_filter (f : Filter) : Bool :=
  (match f.limit with
   | some l => !(5000 < l)
   | none => true) &&
  (match f.since, f.«until» with
   | some s, some u =>
     !(u ≤ s) &&
     !(86400 * 30 < u - s && f.ids.isNone && f.authors.isNone && f.kinds.isNone)
   | _, _ => true) &&
  (match f.ids with
   | some ids => !(1000 < ids.length)
   | none => true) &&
  (match f.authors with
   | some authors => !(1000 < authors.length)
   | none => true) &&
  (match f.kinds with
   | some kinds => !(20 < kinds.length)
   | none => true)

/-- `FilterValidator::validate_subscription_filters`: a non-empty list of at
most 10 filters, each passing `validate_single_filter`. -/
def FilterValidator.validate_subscription_filters (filters : List Filter) : Bool :=
  !filters.isEmpty && filters.length ≤ 10 &&
    filters.all FilterValidator.validate_single_filter

/-!
## Event store (database.rs)

The store is the `events` table, modelled as the list of its rows in
insertion order.
-/

/-- Descending `created_at` order used by `get_events`' SQL
(`ORDER BY created_at DESC`). -/
def eventGE (a b : Event) : Prop :=
  b.created_at ≤ a.created_at

instance : DecidableRel eventGE :=
  fun a b => inferInstanceAs (Decidable (b.created_at ≤ a.created_at))

instance : IsTotal Event eventGE :=
  ⟨fun a b => le_total b.created_at a.created_at⟩

instance : IsTrans Event eventGE :=
  ⟨fun _ _ _ h1 h2 => le_trans h2 h1⟩

/-- `PostgresDatabase::save_event` (database.rs lines 53–79):
`INSERT … ON CONFLICT (id) DO NOTHING`, for every kind — there is no
replaceable or ephemeral special-casing. -/
def save_event (store : List Event) (e : Event) : List Event :=
  if store.any (fun x => x.id == e.id) then store else store ++ [e]

/-- `PostgresDatabase::event_exists` (database.rs lines 81–91):
`SELECT COUNT(*) … WHERE id = $1 > 0`. -/
def event_exists (store : List Event) (event_id : String) : Bool :=
  store.any (fun x => x.id == event_id)

/-- `PostgresDatabase::get_events` (database.rs lines 97–128): the SQL is
`SELECT raw_event FROM events WHERE 1=1 ORDER BY created_at DESC LIMIT 100` —
the filter argument is ignored.  The relative order of rows with equal
`created_at` is unspecified by SQL; we model it as stable (SQLite's rowid
scan order).  `query_events` delegates to this. -/
def get_events (store : List Event) (_filter : Filter) : List Event :=
  (List.insertionSort eventGE store).take 100

/-!
## Relay replies and the main message handlers (main.rs)
-/

/-- Relay-to-client messages produced by the handlers (`RelayMessage`). -/
inductive Reply where
  | okMsg (event_id : String) (status : Bool) (message : String)
  | eventMsg (subscription_id : String) (event : Event)
  | eose (subscription_id : String)
  | closed (subscription_id : String) (message : String)
  | noticeMsg (message : String)
deriving DecidableEq, Repr

/-- Whether a reply is a `CLOSED` frame. -/
def Reply.is_closed : Reply → Bool
  | Reply.closed _ _ => true
  | _ => false

/-- `handle_event_message` (main.rs lines 221–295).  `verify_ok` is the
outcome of `event.verify()` (the external secp256k1 check); the database
write is assumed to succeed (its error branch replies
`OK(id, false, "Failed to store event")` and is not reachable in this pure
model).  Source order: verify, then the duplicate check (returning
`OK(id, true, "duplicate: event already exists")` *before* any write), then
`save_event` and `OK(id, true, "")`.  No fanout to subscriptions happens
anywhere in this handler. -/
def handle_event_message (verify_ok : Bool) (store : List Event) (event : Event) :
    Reply × List Event :=
  if !verify_ok then
    (Reply.okMsg event.id false "Invalid event signature", store)
  else if event_exists store event.id then
    (Reply.okMsg event.id true "duplicate: event already exists", store)
  else
    (Reply.okMsg event.id true "", save_event store event)

/-- The subscription entries `handle_req_message` (main.rs lines 307–316)
registers: key `"{subscription_id}:{i}"` per filter, unconditionally — no
filter validation is performed. -/
def req_registered_filters (subscription_id : String) (filters : List Filter) :
    List (String × Filter) :=
  filters.enum.map (fun p => (subscription_id ++ ":" ++ toString p.1, p.2))

/-- The replies `handle_req_message` (main.rs lines 297–344) sends: for each
filter, every event returned by `query_events` (= `get_events`), then a
single EOSE.  No validation, no `CLOSED`. -/
def handle_req_message (store : List Event) (subscription_id : String)
    (filters : List Filter) : List Reply :=
  (filters.flatMap (fun f => (get_events store f).map (Reply.eventMsg subscription_id)))
    ++ [Reply.eose subscription_id]

/-!
## The alternate event path (event_handler.rs / websocket.rs)
-/

/-- `EventHandler::process_event` (event_handler.rs lines 26–72): `true`
means the event was accepted and stored.  The rate limit, structural
validation and kind checks, and the duplicate lookup against the storage
service are externals of this crate (the storage layer's implementation is
not part of the relay engine), so their outcomes are the function's inputs;
the decision logic — in particular that a duplicate (`exists_in_storage`)
returns `false`, lines 45–49 — is the source's. -/
def EventHandler.process_event (rate_ok : Bool) (validate_ok : Bool)
    (exists_in_storage : Bool) (kind_ok : Bool) : Bool :=
  if !rate_ok then false
  else if !validate_ok then false
  else if exists_in_storage then false
  else if !kind_ok then false
  else true

/-- The OK frame `websocket.rs` (lines 186–200) builds from
`process_event`'s verdict. -/
def websocket_ok_reply (event : Event) (accepted : Bool) : Reply :=
  if accepted then Reply.okMsg event.id true ""
  else Reply.okMsg event.id false "Event rejected"

/-!
## Rate limiter (rate_limiter.rs)

`Instant`s are seconds as `Int`.  Each remote address owns one
`RateLimitEntry`; `u32` connection counts are embedded in `Int` with the
release-mode wraparound of `+= 1` at `2^32` made explicit, so that absence
of underflow is a statement, not a typing artifact.
-/

/-- `struct RateLimitConfig` (rate_limiter.rs lines 9–15). -/
structure RateLimitConfig where
  events_per_minute : Nat
  queries_per_minute : Nat
  connections_per_ip : Nat
  cleanup_interval : Int
deriving DecidableEq, Repr

/-- `RateLimitConfig::default()`: 60 events/min, 120 queries/min, 10
connections per address, 300 s cleanup interval. -/
def RateLimitConfig.default_config : RateLimitConfig :=
  { events_per_minute := 60, queries_per_minute := 120,
    connections_per_ip := 10, cleanup_interval := 300 }

/-- `struct RateLimitEntry` (rate_limiter.rs lines 28–34). -/
structure RateLimitEntry where
  events : List Int
  queries : List Int
  connections : Int
  last_cleanup : Int
deriving DecidableEq, Repr

/-- `RateLimitEntry::new()` at time `now`: empty windows,
`last_cleanup = Instant::now()`. -/
def RateLimitEntry.new (now : Int) : RateLimitEntry :=
  { events := [], queries := [], connections := 0, last_cleanup := now }

/-- `RateLimitEntry::cleanup_old_entries` (rate_limiter.rs lines 46–51):
retain timestamps strictly newer than `now - window`, stamp `last_cleanup`. -/
def RateLimitEntry.cleanup_old_entries (entry : RateLimitEntry) (now window : Int) :
    RateLimitEntry :=
  { entry with
    events := entry.events.filter (fun t => now - window < t),
    queries := entry.queries.filter (fun t => now - window < t),
    last_cleanup := now }

/-- `RateLimitEntry::should_cleanup` (rate_limiter.rs lines 53–55). -/
def RateLimitEntry.should_cleanup (entry : RateLimitEntry)
    (now cleanup_interval : Int) : Bool :=
  cleanup_interval < now - entry.last_cleanup

/-- The per-entry core of `RateLimiter::check_event_rate` (rate_limiter.rs
lines 102–121): prune **only** when `should_cleanup` (more than
`cleanup_interval` since the last prune), then deny if the recorded-event
count has reached `events_per_minute`, else record `now`. -/
def check_event_rate (config : RateLimitConfig) (now : Int)
    (entry : RateLimitEntry) : Bool × RateLimitEntry :=
  let entry1 :=
    if entry.should_cleanup now config.cleanup_interval then
      entry.cleanup_old_entries now 60
    else entry
  if config.events_per_minute ≤ entry1.events.length then
    (false, entry1)
  else
    (true, { entry1 with events := entry1.events ++ [now] })

/-- Run successive `check_event_rate` calls for one address from a given
entry, collecting each admission verdict. -/
def run_event_checks_from (config : RateLimitConfig) (entry : RateLimitEntry) :
    List Int → List Bool
  | [] => []
  | t :: ts =>
    let r := check_event_rate config t entry
    r.1 :: run_event_checks_from config r.2 ts

/-- Run `check_event_rate` for one previously-untracked address at the given
times: the first check creates the entry via
`entries.entry(ip).or_insert_with(RateLimitEntry::new)`. -/
def run_event_checks (config : RateLimitConfig) : List Int → List Bool
  | [] => []
  | t :: ts => run_event_checks_from config (RateLimitEntry.new t) (t :: ts)

/-!
## Connection counting (rate_limiter.rs lines 156–173)

The `HashMap<IpAddr, RateLimitEntry>` restricted to its `connections` field,
as an association list.
-/

/-- The live-connection count the limiter tracks for `ip` (0 when the
address is untracked). -/
def conn_count (entries : List (String × Int)) (ip : String) : Int :=
  match entries.find? (fun p => p.1 == ip) with
  | some p => p.2
  | none => 0

/-- `RateLimiter::add_connection`: `entry(ip).or_insert_with(new)` then
`connections += 1` (u32 wraparound at `2^32` made explicit). -/
def add_connection (entries : List (String × Int)) (ip : String) :
    List (String × Int) :=
  if entries.any (fun p => p.1 == ip) then
    entries.map (fun p => if p.1 == ip then (p.1, (p.2 + 1) % 2 ^ 32) else p)
  else
    (ip, 1) :: entries

/-- `RateLimiter::remove_connection`: only when the address is tracked
**and** its count is positive is the count decremented (lines 164–173). -/
def remove_connection (entries : List (String × Int)) (ip : String) :
    List (String × Int) :=
  entries.map (fun p => if p.1 == ip && 0 < p.2 then (p.1, p.2 - 1) else p)

/-- A client-visible connection lifecycle operation. -/
inductive ConnOp where
  | add (ip : String)
  | remove (ip : String)
deriving DecidableEq, Repr

/-- Apply a sequence of `add_connection`/`remove_connection` calls. -/
def apply_conn_ops : List ConnOp → List (String × Int) → List (String × Int)
  | [], entries => entries
  | ConnOp.add ip :: ops, entries => apply_conn_ops ops (add_connection entries ip)
  | ConnOp.remove ip :: ops, entries => apply_conn_ops ops (remove_connection entries ip)

/-!
## Spec-side definitions

Predicates written from the specification's words, kept separate from the
source embeddings above so the two can be compared.
-/

/-- From the spec: «the event matches this clause iff it has at least one tag
whose name equals `X` and whose second element is in the set» — for the tag
clause `#X → s`. -/
def spec_tag_clause_holds (x : String) (s : List String) (e : Event) : Bool :=
  e.tags.any (fun tag =>
    tag.tag_name == some x &&
    (match tag.get 1 with
     | some v => s.contains v
     | none => false))

/-- From the spec: kind-0 `content` «parseable as a JSON object» — a JSON
text whose first non-whitespace character opens an object. -/
def parses_as_json_object (s : String) : Bool :=
  match skipWs s.toList with
  | c :: _ => c == '\x7b' && parsesAsJson s
  | [] => false

/-- The per-filter acceptance condition of the amended C7 claim, spelled
extensionally: limit at most 5000; when both bounds are present,
`since < until` and a range over 30 days forces at least one of
`ids`/`authors`/`kinds` to be present; at most 1000 ids, 1000 authors and 20
kinds.  Tag clauses are unconstrained. -/
def single_filter_ok_spec (f : Filter) : Prop :=
  (∀ l, f.limit = some l → l ≤ 5000) ∧
  (∀ s u, f.since = some s → f.«until» = some u →
    s < u ∧ (86400 * 30 < u - s → ¬(f.ids = none ∧ f.authors = none ∧ f.kinds = none))) ∧
  (∀ ids, f.ids = some ids → ids.length ≤ 1000) ∧
  (∀ authors, f.authors = some authors → authors.length ≤ 1000) ∧
  (∀ kinds, f.kinds = some kinds → kinds.length ≤ 20)

/-- Verdicts of a run of admission checks that never prunes: deny whenever
the bucket already holds `threshold` stamps, else record one more.  The
amended C6 claim states that `check_event_rate` behaves like this between
cleanups. -/
def bucket_results (threshold : Nat) (count : Nat) : List Int → List Bool
  | [] => []
  | _ :: ts =>
    if threshold ≤ count then false :: bucket_results threshold count ts
    else true :: bucket_results threshold (count + 1) ts

/-!
## Concrete inputs used by counterexamples and witnesses
-/

/-- A kind-1 event (id `"01"`). -/
def ev1 : Event :=
  { id := "01", pubkey := "pkA", created_at := 100, kind := 1,
    tags := [], content := "hello", sig := "s1" }

/-- A filter selecting only kind 2. -/
def kind2Filter : Filter :=
  { Filter.new with kinds := some [2] }

/-- An event carrying the tag `["e", "abc"]`. -/
def taggedEvent : Event :=
  { id := "02", pubkey := "pkA", created_at := 100, kind := 1,
    tags := [⟨["e", "abc"]⟩], content := "", sig := "s2" }

/-- A filter whose only clause is the wire-keyed tag clause `#e → {"abc"}`. -/
def hashEFilter : Filter :=
  { Filter.new with tags := [("#e", ["abc"])] }

/-- Two distinct replaceable-kind (10000) events by the same author. -/
def replA : Event :=
  { id := "0a", pubkey := "pkR", created_at := 100, kind := 10000,
    tags := [], content := "old", sig := "sa" }

/-- The newer of the two replaceable events. -/
def replB : Event :=
  { id := "0b", pubkey := "pkR", created_at := 200, kind := 10000,
    tags := [], content := "new", sig := "sb" }

/-- An ephemeral event (kind 20001). -/
def ephEvent : Event :=
  { id := "0e", pubkey := "pkE", created_at := 100, kind := 20001,
    tags := [], content := "", sig := "se" }

/-- A rate-limit configuration with an event threshold of 3 (the thresholds
are configurable; the window and cleanup interval are the defaults). -/
def threshold3Config : RateLimitConfig :=
  { events_per_minute := 3, queries_per_minute := 120,
    connections_per_ip := 10, cleanup_interval := 300 }

/-- 21 values for a single tag clause. -/
def tag21Values : List String :=
  ["v01", "v02", "v03", "v04", "v05", "v06", "v07", "v08", "v09", "v10",
   "v11", "v12", "v13", "v14", "v15", "v16", "v17", "v18", "v19", "v20",
   "v21"]

/-- A filter whose only clause is a tag clause with 21 values. -/
def tag21Filter : Filter :=
  { Filter.new with tags := [("#t", tag21Values)] }

/-- A kind-0 event whose content is the JSON array `[]` — valid JSON, not an
object. -/
def arrayContentEvent : Event :=
  { id := "0m", pubkey := "pkM", created_at := 100, kind := 0,
    tags := [], content := "[]", sig := "sm" }

/-!
## Theorems
-/

/-- C10: a filter with no clauses at all — `Filter::new` = `Filter::default`
(ids, authors, kinds, since, until all absent, no tag clauses) — matches
every event: the empty conjunction is true. -/
theorem c10_empty_filter_matches_everything (e : Event) :
    Filter.new.matches e = true := rfl

/-- C1 counterexample: the claim says an event not matching the filter never
appears in `query`'s result; but `get_events` ignores its filter argument —
a store holding one kind-1 event returns that event for a kinds=[2] filter
it does not match. -/
theorem c1_query_returns_nonmatching_event :
    Filter.matches kind2Filter ev1 = false ∧
    get_events [ev1] kind2Filter = [ev1] :=
  ⟨rfl, rfl⟩

/-- C1 amended: `get_events` ignores the filter entirely (same result for
every filter), returns the stored rows ordered by `created_at` descending —
with no `id` tie-break — truncated at the fixed SQL `LIMIT 100` (neither
`filter.limit` nor any policy maximum is consulted), and never invents
events. -/
theorem c1_amended_query_ignores_filter (store : List Event) (f : Filter) :
    get_events store f = get_events store Filter.new ∧
    List.Sorted eventGE (get_events store f) ∧
    (get_events store f).length ≤ 100 ∧
    ∀ e ∈ get_events store f, e ∈ store := by
  refine ⟨rfl, ?_, ?_, ?_⟩
  · exact List.Pairwise.sublist (List.take_sublist _ _)
      (List.sorted_insertionSort eventGE store)
  · exact List.length_take_le _ _
  · intro e he
    exact (List.mem_insertionSort eventGE).mp (List.mem_of_mem_take he)

/-- Witness for the amended C1 claim at a one-event store and a
non-matching filter. -/
theorem c1_amended_query_ignores_filter_witness :
    get_events [ev1] kind2Filter = get_events [ev1] Filter.new ∧
    ev1 ∈ [ev1] :=
  ⟨(c1_amended_query_ignores_filter [ev1] kind2Filter).1,
   (c1_amended_query_ignores_filter [ev1] kind2Filter).2.2.2 ev1 (by decide)⟩

/-- C4 counterexample: two distinct replaceable-kind (10000) events by the
same author, inserted oldest first; the claim says exactly one (the newer)
survives, but `save_event` is `ON CONFLICT (id) DO NOTHING` and keeps
both. -/
theorem c4_both_replaceable_events_retained :
    replA.pubkey = replB.pubkey ∧
    replA.is_replaceable = true ∧
    replB.is_replaceable = true ∧
    replA.created_at < replB.created_at ∧
    save_event (save_event [] replA) replB = [replA, replB] :=
  ⟨rfl, rfl, rfl, by decide, rfl⟩

/-- C4 amended: insertion is idempotent by `id` only.  Inserting two events
with distinct ids not yet present — replaceable kinds included — appends
both; no older event is removed. -/
theorem c4_amended_insert_id_idempotent_only (store : List Event)
    (e1 e2 : Event)
    (h1 : event_exists store e1.id = false)
    (h2 : event_exists store e2.id = false)
    (h12 : e1.id ≠ e2.id) :
    save_event (save_event store e1) e2 = store ++ [e1, e2] := by
  simp only [event_exists] at h1 h2
  have hid : (e1.id == e2.id) = false := beq_eq_false_iff_ne.mpr h12
  have hs1 : save_event store e1 = store ++ [e1] := by
    unfold save_event
    rw [h1]
    simp
  rw [hs1]
  unfold save_event
  rw [List.any_append, h2]
  simp [hid]

/-- Witness for the amended C4 claim at the two concrete replaceable
events. -/
theorem c4_amended_insert_id_idempotent_only_witness :
    save_event (save_event [] replA) replB = [] ++ [replA, replB] :=
  c4_amended_insert_id_idempotent_only [] replA replB rfl rfl (by decide)

/-- C5 counterexample: the claim says inserting an ephemeral event performs
no write and `exists(e.id)` stays false; but `save_event` has no ephemeral
branch, so the event is persisted and found. -/
theorem c5_ephemeral_event_persisted :
    ephEvent.is_ephemeral = true ∧
    event_exists (save_event [] ephEvent) ephEvent.id = true :=
  ⟨rfl, rfl⟩

/-- C5 amended: an ephemeral event is stored exactly like a regular one:
the EVENT handler accepts it with `OK(id, true, "")`, appends it to the
store, and `exists(e.id)` returns true afterwards.  (No dispatcher fanout
exists in this handler at all — its only output is the single OK reply.) -/
theorem c5_amended_ephemeral_stored_like_regular (store : List Event)
    (e : Event)
    (hfresh : event_exists store e.id = false)
    (_heph : e.is_ephemeral = true) :
    handle_event_message true store e = (Reply.okMsg e.id true "", store ++ [e]) ∧
    event_exists (save_event store e) e.id = true := by
  simp only [event_exists] at hfresh
  constructor
  · simp [handle_event_message, event_exists, hfresh, save_event]
  · simp [event_exists, save_event, hfresh, List.any_append]

/-- Witness for the amended C5 claim at the concrete ephemeral event. -/
theorem c5_amended_ephemeral_stored_like_regular_witness :
    handle_event_message true [] ephEvent =
      (Reply.okMsg ephEvent.id true "", [] ++ [ephEvent]) ∧
    event_exists (save_event [] ephEvent) ephEvent.id = true :=
  c5_amended_ephemeral_stored_like_regular [] ephEvent rfl rfl

/-- C3 counterexample: the claim says a duplicate submission is *never*
answered with `status=false`; but on the `EventHandler`/`websocket` path a
duplicate (`exists_in_storage = true`, with rate, validation and kind checks
all passing) is rejected, and the websocket layer replies
`OK(id, false, "Event rejected")`. -/
theorem c3_duplicate_rejected_on_alternate_path :
    EventHandler.process_event true true true true = false ∧
    websocket_ok_reply ev1 (EventHandler.process_event true true true true) =
      Reply.okMsg ev1.id false "Event rejected" :=
  ⟨rfl, rfl⟩

/-- C3 amended: on the `main.rs` path a duplicate yields
`OK(id, true, "duplicate: event already exists")` — a message beginning
`"duplicate:"` — with the store untouched; on the
`EventHandler`/`websocket` path the same duplicate is instead answered
`OK(id, false, "Event rejected")`. -/
theorem c3_amended_duplicate_replies (store : List Event) (e : Event)
    (hdup : event_exists store e.id = true) :
    handle_event_message true store e =
      (Reply.okMsg e.id true "duplicate: event already exists", store) ∧
    "duplicate: event already exists" = "duplicate:" ++ " event already exists" ∧
    websocket_ok_reply e (EventHandler.process_event true true true true) =
      Reply.okMsg e.id false "Event rejected" := by
  refine ⟨?_, rfl, rfl⟩
  unfold handle_event_message
  rw [hdup]
  simp

/-- Witness for the amended C3 claim: the store already holds `ev1`. -/
theorem c3_amended_duplicate_replies_witness :
    (handle_event_message true [ev1] ev1 =
      (Reply.okMsg ev1.id true "duplicate: event already exists", [ev1])) ∧
    "duplicate: event already exists" = "duplicate:" ++ " event already exists" ∧
    websocket_ok_reply ev1 (EventHandler.process_event true true true true) =
      Reply.okMsg ev1.id false "Event rejected" :=
  c3_amended_duplicate_replies [ev1] ev1 rfl

/-- C2 counterexample: the claim says the clause `#e → {"abc"}` is satisfied
by an event with tag `["e", "abc"]` (name `e`, second element in the set);
the spec-side predicate agrees, but `Filter::matches` compares the raw map
key `"#e"` against the tag name `"e"` and fails the event. -/
theorem c2_hash_prefixed_clause_never_matches :
    spec_tag_clause_holds "e" ["abc"] taggedEvent = true ∧
    Filter.matches hashEFilter taggedEvent = false :=
  ⟨rfl, rfl⟩

/-- C2 amended: for a filter whose only clauses are tag clauses, `matches`
treats the clause keyed by the literal map key `k` (which carries its `#`
prefix on the wire) as satisfied iff the event has a tag whose *first*
element equals `k` itself and *any* element from the second onward lies in
the clause's set — so a wire clause `#X` can only be satisfied by a tag
literally named `#X`, never by one named `X`, and matching is not limited to
the second element. -/
theorem c2_amended_tag_clause_semantics (tcs : List (String × List String))
    (e : Event) :
    Filter.matches { Filter.new with tags := tcs } e = true ↔
      ∀ c ∈ tcs, ∃ tag ∈ e.tags, tag.tag_name = some c.1 ∧
        ∃ v ∈ tag.values.drop 1, v ∈ c.2 := by
  simp [Filter.matches, Filter.new, List.all_eq_true, List.any_eq_true,
    Bool.and_eq_true, beq_iff_eq, List.elem_iff]

/-- An event whose tag is literally named `"#e"` — the only shape the coded
tag-clause comparison can accept for the wire key `"#e"`. -/
def hashTaggedEvent : Event :=
  { id := "03", pubkey := "pkA", created_at := 0, kind := 1,
    tags := [⟨["#e", "abc"]⟩], content := "", sig := "s3" }

/-- Witness for the amended C2 claim: the clause `"#e" → {"abc"}` is
satisfied by a tag whose first element is literally `"#e"`. -/
theorem c2_amended_tag_clause_semantics_witness :
    Filter.matches { Filter.new with tags := [("#e", ["abc"])] }
      hashTaggedEvent = true :=
  (c2_amended_tag_clause_semantics [("#e", ["abc"])] hashTaggedEvent).mpr
    (by decide)

/-- `validate_single_filter` accepts exactly the filters described by
`single_filter_ok_spec`. -/
theorem validate_single_filter_iff (f : Filter) :
    FilterValidator.validate_single_filter f = true ↔ single_filter_ok_spec f := by
  obtain ⟨ids, authors, kinds, since, u, limit, tags⟩ := f
  unfold FilterValidator.validate_single_filter single_filter_ok_spec
  cases limit <;> cases since <;> cases u <;> cases ids <;> cases authors <;>
    cases kinds <;>
    simp [Bool.and_eq_true, Option.isNone, not_lt, Int.not_lt, and_assoc]

/-- C7 counterexample: a filter whose single tag clause carries 21 values —
over the claimed bound of 20 — passes `validate_subscription_filters`: tag
clauses are never validated. -/
theorem c7_oversized_tag_clause_accepted :
    FilterValidator.validate_subscription_filters [tag21Filter] = true ∧
    tag21Filter.tags = [("#t", tag21Values)] ∧
    tag21Values.length = 21 :=
  ⟨rfl, rfl, rfl⟩

/-- C7 amended: `validate_subscription_filters` rejects exactly when the
filter list is empty, has more than 10 filters, or some filter exceeds a
bound on limit (5000), ids (1000), authors (1000), kinds (20), or has
`since ≥ until` or an over-30-day range with ids, authors and kinds all
absent — tag-clause sizes are never checked.  Moreover the relay's REQ
handler never emits a CLOSED frame at all (it performs no validation), so a
rejected REQ answered with CLOSED does not occur. -/
theorem c7_amended_validator_characterization (fs : List Filter) :
    (FilterValidator.validate_subscription_filters fs = true ↔
      fs ≠ [] ∧ fs.length ≤ 10 ∧ ∀ f ∈ fs, single_filter_ok_spec f) ∧
    ∀ (store : List Event) (subscription_id : String) (filters : List Filter),
      (handle_req_message store subscription_id filters).all
        (fun r => !r.is_closed) = true := by
  constructor
  · unfold FilterValidator.validate_subscription_filters
    simp [Bool.and_eq_true, List.all_eq_true, List.isEmpty_iff,
      validate_single_filter_iff, and_assoc]
  · intro store subscription_id filters
    rw [List.all_eq_true]
    intro r hr
    unfold handle_req_message at hr
    rcases List.mem_append.mp hr with h | h
    · obtain ⟨f, _, hf⟩ := List.mem_flatMap.mp h
      obtain ⟨e, _, rfl⟩ := List.mem_map.mp hf
      rfl
    · rw [List.mem_singleton.mp h]
      rfl

/-- Witness for the amended C7 claim: a single empty filter passes the
validator, and a REQ's replies contain no CLOSED. -/
theorem c7_amended_validator_characterization_witness :
    FilterValidator.validate_subscription_filters [Filter.new] = true ∧
    (handle_req_message [] "sub1" [Filter.new]).all (fun r => !r.is_closed) = true :=
  ⟨(c7_amended_validator_characterization [Filter.new]).1.mpr
      ⟨by simp, by simp, by
        intro f hf
        rw [List.mem_singleton.mp hf]
        exact (validate_single_filter_iff Filter.new).mp rfl⟩,
   (c7_amended_validator_characterization [Filter.new]).2 [] "sub1" [Filter.new]⟩

/-- C8 counterexample: the claim says kind-0 content must parse as a JSON
*object*; but the code accepts any JSON value — here the array `[]`. -/
theorem c8_kind0_array_content_accepted :
    arrayContentEvent.kind = 0 ∧
    arrayContentEvent.validate_kind_specific = true ∧
    parses_as_json_object arrayContentEvent.content = false :=
  ⟨rfl, by decide, by decide⟩

/-- C8 amended: kind-0 structural validation succeeds iff the content is
empty (accepted without parsing) or parses as *some* JSON value — object or
not. -/
theorem c8_amended_kind0_any_json (e : Event) (h : e.kind = 0) :
    e.validate_kind_specific = true ↔
      (e.content.isEmpty = true ∨ parsesAsJson e.content = true) := by
  unfold Event.validate_kind_specific
  rw [h]
  cases hc : e.content.isEmpty <;> simp [hc]

/-- Witness for the amended C8 claim at the kind-0 array-content event. -/
theorem c8_amended_kind0_any_json_witness :
    arrayContentEvent.validate_kind_specific = true ↔
      (arrayContentEvent.content.isEmpty = true ∨
        parsesAsJson arrayContentEvent.content = true) :=
  c8_amended_kind0_any_json arrayContentEvent rfl

/-- Below the threshold, `check_event_rate` admits and the recorded-event
count grows by at most one. -/
theorem check_event_rate_admit (config : RateLimitConfig) (now : Int)
    (entry : RateLimitEntry)
    (h : entry.events.length < config.events_per_minute) :
    (check_event_rate config now entry).1 = true ∧
    (check_event_rate config now entry).2.events.length ≤
      entry.events.length + 1 := by
  simp only [check_event_rate]
  have hle : (if entry.should_cleanup now config.cleanup_interval then
      entry.cleanup_old_entries now 60 else entry).events.length ≤
      entry.events.length := by
    split
    · exact List.length_filter_le _ _
    · exact le_refl _
  rw [if_neg (not_le.mpr (lt_of_le_of_lt hle h))]
  refine ⟨rfl, ?_⟩
  simpa using Nat.add_le_add_right hle 1

/-- As long as the number of checks cannot reach the threshold, every check
is admitted — regardless of timing, since denial only looks at the stored
count. -/
theorem run_from_all_true (config : RateLimitConfig) :
    ∀ (ts : List Int) (entry : RateLimitEntry),
      entry.events.length + ts.length ≤ config.events_per_minute →
      run_event_checks_from config entry ts = List.replicate ts.length true := by
  intro ts
  induction ts with
  | nil => intro entry _; rfl
  | cons t ts ih =>
    intro entry h
    have hlen : entry.events.length < config.events_per_minute := by
      simp only [List.length_cons] at h
      omega
    obtain ⟨hb, hg⟩ := check_event_rate_admit config t entry hlen
    simp only [run_event_checks_from]
    rw [hb, List.length_cons, List.replicate_succ]
    congr 1
    apply ih
    simp only [List.length_cons] at h
    omega

/-- Between cleanups (no check more than `cleanup_interval` after the last
prune), the limiter is a plain counter: it behaves like `bucket_results`
seeded with the current record size, never discarding old stamps. -/
theorem run_from_no_cleanup (config : RateLimitConfig) :
    ∀ (ts : List Int) (entry : RateLimitEntry),
      (∀ t ∈ ts, t - entry.last_cleanup ≤ config.cleanup_interval) →
      run_event_checks_from config entry ts =
        bucket_results config.events_per_minute entry.events.length ts := by
  intro ts
  induction ts with
  | nil => intro entry _; rfl
  | cons t ts ih =>
    intro entry h
    have hsc : entry.should_cleanup t config.cleanup_interval = false := by
      have ht := h t (List.mem_cons_self t ts)
      simp only [RateLimitEntry.should_cleanup, decide_eq_false_iff_not, not_lt]
      exact ht
    simp only [run_event_checks_from, check_event_rate, hsc, Bool.false_eq_true,
      if_false, bucket_results]
    by_cases hfull : config.events_per_minute ≤ entry.events.length
    · rw [if_pos hfull, if_pos hfull]
      exact congrArg (List.cons false)
        (ih entry (fun t' ht' => h t' (List.mem_cons_of_mem _ ht')))
    · rw [if_neg hfull, if_neg hfull]
      refine congrArg (List.cons true) ?_
      rw [ih { entry with events := entry.events ++ [t] }
        (fun t' ht' => h t' (List.mem_cons_of_mem _ ht'))]
      simp [List.length_append]

/-- A full bucket run of `threshold - count + 1` checks: all admits, then
exactly one denial. -/
theorem bucket_results_full (threshold : Nat) :
    ∀ (ts : List Int) (count : Nat),
      count ≤ threshold → ts.length = threshold - count + 1 →
      bucket_results threshold count ts =
        List.replicate (threshold - count) true ++ [false] := by
  intro ts
  induction ts with
  | nil =>
    intro count _ h2
    simp at h2
  | cons t ts ih =>
    intro count h1 h2
    by_cases hc : threshold ≤ count
    · have hcount : count = threshold := le_antisymm h1 hc
      have hts : ts = [] := by
        rw [List.length_eq_zero.symm] at *
        simp only [List.length_cons] at h2
        omega
      subst hts
      simp [bucket_results, hc, hcount]
    · push_neg at hc
      simp only [bucket_results, if_neg (not_le.mpr hc)]
      rw [ih (count + 1) (by omega) (by simp only [List.length_cons] at h2; omega)]
      have hsplit : threshold - count = (threshold - (count + 1)) + 1 := by omega
      rw [hsplit, List.replicate_succ]
      simp

/-- C6 counterexample: with a (configurable) threshold of 3, two stale
events fired long before and one recent one are all still on the record at
the check at time 121 — `check_event_rate` prunes only when more than the
300-second cleanup interval has passed — so the checks at 121, 122 and 123
are all denied, although only one previously fired event (120) lies in the
trailing 60-second window, i.e. under the claim's windowed counting they
should all have been admitted, and a burst of threshold+1 in-window events
should produce exactly one denial, not three. -/
theorem c6_stale_events_counted_against_limit :
    run_event_checks threshold3Config [0, 0, 120, 121, 122, 123] =
      [true, true, true, false, false, false] ∧
    (([0, 0, 120].filter (fun t : Int => 121 - 60 < t)).length <
      threshold3Config.events_per_minute) := by
  constructor
  · rfl
  · decide

/-- C6 amended: `check_event_rate` prunes the record only when more than
`cleanup_interval` (default 300 s, not 60 s) has elapsed since the entry's
last prune; between prunes every recorded event counts against the
threshold regardless of age.  Consequently (a) any sequence of at most
`threshold` checks is fully admitted — trivially, spacing aside — and (b)
for a previously-untracked address, `threshold + 1` checks all within
`cleanup_interval` of the first produce exactly `threshold` admissions
followed by one denial. -/
theorem c6_amended_rate_window (config : RateLimitConfig) (times : List Int)
    (t0 : Int) (ts : List Int)
    (ha : times.length ≤ config.events_per_minute)
    (hb : ∀ t ∈ t0 :: ts, t - t0 ≤ config.cleanup_interval)
    (hc : (t0 :: ts).length = config.events_per_minute + 1) :
    run_event_checks config times = List.replicate times.length true ∧
    run_event_checks config (t0 :: ts) =
      List.replicate config.events_per_minute true ++ [false] := by
  constructor
  · cases times with
    | nil => rfl
    | cons t ts' =>
      exact run_from_all_true config (t :: ts') (RateLimitEntry.new t)
        (by simpa [RateLimitEntry.new] using ha)
  · have hrun : run_event_checks config (t0 :: ts) =
        run_event_checks_from config (RateLimitEntry.new t0) (t0 :: ts) := rfl
    rw [hrun, run_from_no_cleanup config (t0 :: ts) (RateLimitEntry.new t0)
      (by simpa [RateLimitEntry.new] using hb)]
    have hfull := bucket_results_full config.events_per_minute (t0 :: ts) 0
      (Nat.zero_le _) (by simpa using hc)
    simpa [RateLimitEntry.new] using hfull

/-- Witness for the amended C6 claim: threshold 3, two well-spaced checks
all admitted; a fresh four-check burst inside the interval gives three
admits and one denial. -/
theorem c6_amended_rate_window_witness :
    run_event_checks threshold3Config [0, 1000] = [true, true] ∧
    run_event_checks threshold3Config [0, 10, 20, 30] =
      [true, true, true, false] := by
  have h := c6_amended_rate_window threshold3Config [0, 1000] 0 [10, 20, 30]
    (by decide) (by decide) (by decide)
  simpa [List.replicate] using h

/-- All tracked per-address connection counters are non-negative. -/
def entries_nonneg (entries : List (String × Int)) : Prop :=
  ∀ p ∈ entries, 0 ≤ p.2

/-- A non-negative table yields a non-negative count at every address. -/
theorem conn_count_nonneg_of_entries_nonneg (entries : List (String × Int))
    (hinv : entries_nonneg entries) (ip : String) :
    0 ≤ conn_count entries ip := by
  unfold conn_count
  cases hfind : entries.find? (fun p => p.1 == ip) with
  | none => exact le_refl 0
  | some p => exact hinv p (List.mem_of_find?_eq_some hfind)

/-- `add_connection` keeps every counter non-negative. -/
theorem add_connection_entries_nonneg (entries : List (String × Int))
    (j : String) (hinv : entries_nonneg entries) :
    entries_nonneg (add_connection entries j) := by
  unfold add_connection
  split
  · intro p hp
    obtain ⟨q, hq, rfl⟩ := List.mem_map.mp hp
    split
    · exact Int.emod_nonneg _ (by norm_num)
    · exact hinv q hq
  · intro p hp
    rcases List.mem_cons.mp hp with rfl | hmem
    · norm_num
    · exact hinv p hmem

/-- `remove_connection` keeps every counter non-negative: the decrement is
guarded by `0 < count`. -/
theorem remove_connection_entries_nonneg (entries : List (String × Int))
    (j : String) (hinv : entries_nonneg entries) :
    entries_nonneg (remove_connection entries j) := by
  unfold remove_connection
  intro p hp
  obtain ⟨q, hq, rfl⟩ := List.mem_map.mp hp
  split
  · rename_i hcond
    have : (0 : Int) < q.2 := by
      have := (Bool.and_eq_true _ _).mp hcond
      simpa using this.2
    omega
  · exact hinv q hq

/-- Any sequence of connection operations keeps every counter
non-negative. -/
theorem apply_conn_ops_entries_nonneg :
    ∀ (ops : List ConnOp) (entries : List (String × Int)),
      entries_nonneg entries → entries_nonneg (apply_conn_ops ops entries)
  | [], _, hinv => hinv
  | ConnOp.add ip :: ops, entries, hinv =>
    apply_conn_ops_entries_nonneg ops _ (add_connection_entries_nonneg entries ip hinv)
  | ConnOp.remove ip :: ops, entries, hinv =>
    apply_conn_ops_entries_nonneg ops _ (remove_connection_entries_nonneg entries ip hinv)

/-- `remove_connection` at an address decrements its count exactly when it
is positive, and otherwise — count zero, or address untracked — leaves it
unchanged. -/
theorem conn_count_remove_self (j : String) :
    ∀ entries : List (String × Int),
      conn_count (remove_connection entries j) j =
        if 0 < conn_count entries j then conn_count entries j - 1
        else conn_count entries j := by
  intro entries
  induction entries with
  | nil => simp [conn_count, remove_connection]
  | cons p rest ih =>
    obtain ⟨k, c⟩ := p
    by_cases hk : (k == j) = true
    · by_cases hcpos : (0 : Int) < c
      · simp [remove_connection, conn_count, hk, hcpos, List.find?]
      · simp [remove_connection, conn_count, hk, hcpos, List.find?]
    · simp only [remove_connection, List.map] at ih ⊢
      simp [conn_count, List.find?, hk] at ih ⊢
      exact ih

/-- C9: the live-connection count never underflows.  Starting from an empty
table, any sequence of `add_connection`/`remove_connection` calls keeps
every address's count non-negative; and a `remove_connection` on an address
whose count is zero (including an untracked address) leaves the count at
zero. -/
theorem c9_connection_count_never_underflows (ops : List ConnOp) (ip : String) :
    0 ≤ conn_count (apply_conn_ops ops []) ip ∧
    ∀ (entries : List (String × Int)) (j : String),
      conn_count entries j = 0 →
      conn_count (remove_connection entries j) j = 0 := by
  constructor
  · exact conn_count_nonneg_of_entries_nonneg _
      (apply_conn_ops_entries_nonneg ops [] (by intro p hp; cases hp)) ip
  · intro entries j h
    rw [conn_count_remove_self j entries, h]
    simp

/-- Witness for C9: one add then two removes of `"a"` stays non-negative,
and removing from the zero-count address `"b"` leaves zero. -/
theorem c9_connection_count_never_underflows_witness :
    0 ≤ conn_count
        (apply_conn_ops
          [ConnOp.add "a", ConnOp.remove "a", ConnOp.remove "a"] []) "a" ∧
    conn_count (remove_connection [("b", 0)] "b") "b" = 0 :=
  ⟨(c9_connection_count_never_underflows
      [ConnOp.add "a", ConnOp.remove "a", ConnOp.remove "a"] "a").1,
   (c9_connection_count_never_underflows [] "x").2 [("b", 0)] "b" rfl⟩

end PlebR1
